import Mathlib

/-!
Verification development for the BiliBili extractor
(`src/youtube_dl/extractor/bilibili.py`).

The extractor's `_real_extract` method is shallow-embedded below:
pure Python expressions become Lean functions, 32-bit arithmetic is
`Nat` arithmetic with explicit `% 2^32`, fallible dictionary/list
subscripts become `Except`, and the helpers supplied by the host
framework (`_search_regex`, `compat_parse_qs`, numeric coercions,
`_sort_formats`) — which are not part of the extractor source file —
are modelled from the specification document.
-/

namespace Bili

/-! ### Byte-level string helpers -/

/-- UTF-8 encoding of one character as a list of byte values
(the model of Python's `str.encode('utf-8')` for one code point). -/
def utf8EncodeCharNat (c : Char) : List Nat :=
  let n := c.toNat
  if n < 128 then [n]
  else if n < 2048 then
    [192 + n / 64, 128 + n % 64]
  else if n < 65536 then
    [224 + n / 4096, 128 + n / 64 % 64, 128 + n % 64]
  else
    [240 + n / 262144, 128 + n / 4096 % 64, 128 + n / 64 % 64, 128 + n % 64]

/-- UTF-8 bytes of a string (model of `s.encode('utf-8')`). -/
def utf8Bytes (s : String) : List Nat :=
  s.data.flatMap utf8EncodeCharNat

/-- Is `needle` a leading segment of `hay`? (Helper for substring search.) -/
def leadsList : List Char → List Char → Bool
  | [], _ => true
  | a :: as, bs =>
    match bs with
    | [] => false
    | b :: bs' => a == b && leadsList as bs'

/-- Does `hay` contain `needle` as a contiguous substring?
Model of Python's `needle in hay` on strings. -/
def containsSubList (needle : List Char) : List Char → Bool
  | [] => leadsList needle []
  | c :: cs => leadsList needle (c :: cs) || containsSubList needle cs

/-- String-level substring test: model of Python's `sub in s`. -/
def strContains (s sub : String) : Bool :=
  containsSubList sub.data s.data

/-! ### MD5 (model of Python's `hashlib.md5(...).hexdigest()`)

All words are `Nat` values kept below `2^32` by explicit reduction. -/

/-- The 32-bit modulus, 2^32. -/
def M32 : Nat := 4294967296

/-- Addition modulo 2^32. -/
def add32 (a b : Nat) : Nat := (a + b) % M32

/-- Bitwise and on 32-bit words. -/
def and32 (a b : Nat) : Nat := Nat.land a b

/-- Bitwise or on 32-bit words. -/
def or32 (a b : Nat) : Nat := Nat.lor a b

/-- Bitwise xor on 32-bit words. -/
def xor32 (a b : Nat) : Nat := Nat.xor a b

/-- Bitwise complement on a 32-bit word (argument assumed below `2^32`). -/
def not32 (a : Nat) : Nat := Nat.xor a 4294967295

/-- Rotate a 32-bit word left by `n` bits (for `a < 2^32`, `n ≤ 32`). -/
def rotl32 (a n : Nat) : Nat := (a * 2 ^ n + a / 2 ^ (32 - n)) % M32

/-- The MD5 sine-derived round constants `K[0..63]`. -/
def md5K : List Nat :=
  [0xd76aa478, 0xe8c7b756, 0x242070db, 0xc1bdceee,
   0xf57c0faf, 0x4787c62a, 0xa8304613, 0xfd469501,
   0x698098d8, 0x8b44f7af, 0xffff5bb1, 0x895cd7be,
   0x6b901122, 0xfd987193, 0xa679438e, 0x49b40821,
   0xf61e2562, 0xc040b340, 0x265e5a51, 0xe9b6c7aa,
   0xd62f105d, 0x02441453, 0xd8a1e681, 0xe7d3fbc8,
   0x21e1cde6, 0xc33707d6, 0xf4d50d87, 0x455a14ed,
   0xa9e3e905, 0xfcefa3f8, 0x676f02d9, 0x8d2a4c8a,
   0xfffa3942, 0x8771f681, 0x6d9d6122, 0xfde5380c,
   0xa4beea44, 0x4bdecfa9, 0xf6bb4b60, 0xbebfbc70,
   0x289b7ec6, 0xeaa127fa, 0xd4ef3085, 0x04881d05,
   0xd9d4d039, 0xe6db99e5, 0x1fa27cf8, 0xc4ac5665,
   0xf4292244, 0x432aff97, 0xab9423a7, 0xfc93a039,
   0x655b59c3, 0x8f0ccc92, 0xffeff47d, 0x85845dd1,
   0x6fa87e4f, 0xfe2ce6e0, 0xa3014314, 0x4e0811a1,
   0xf7537e82, 0xbd3af235, 0x2ad7d2bb, 0xeb86d391]

/-- The MD5 per-round left-rotation amounts `s[0..63]`. -/
def md5s : List Nat :=
  [7, 12, 17, 22, 7, 12, 17, 22, 7, 12, 17, 22, 7, 12, 17, 22,
   5, 9, 14, 20, 5, 9, 14, 20, 5, 9, 14, 20, 5, 9, 14, 20,
   4, 11, 16, 23, 4, 11, 16, 23, 4, 11, 16, 23, 4, 11, 16, 23,
   6, 10, 15, 21, 6, 10, 15, 21, 6, 10, 15, 21, 6, 10, 15, 21]

/-- The four 32-bit words of the MD5 running state. -/
structure MD5State where
  a : Nat
  b : Nat
  c : Nat
  d : Nat
deriving Repr, DecidableEq

/-- MD5 initial state. -/
def md5Init : MD5State := ⟨0x67452301, 0xefcdab89, 0x98badcfe, 0x10325476⟩

/-- Little-endian 32-bit word read from byte positions `4j..4j+3` of a block. -/
def leWordAt (block : List Nat) (j : Nat) : Nat :=
  block.getD (4 * j) 0 + 256 * block.getD (4 * j + 1) 0 +
    65536 * block.getD (4 * j + 2) 0 + 16777216 * block.getD (4 * j + 3) 0

/-- One MD5 round (round index `i`, current state, message block). -/
def md5Round (block : List Nat) (st : MD5State) (i : Nat) : MD5State :=
  let f :=
    if i < 16 then or32 (and32 st.b st.c) (and32 (not32 st.b) st.d)
    else if i < 32 then or32 (and32 st.d st.b) (and32 (not32 st.d) st.c)
    else if i < 48 then xor32 (xor32 st.b st.c) st.d
    else xor32 st.c (or32 st.b (not32 st.d))
  let g :=
    if i < 16 then i
    else if i < 32 then (5 * i + 1) % 16
    else if i < 48 then (3 * i + 5) % 16
    else (7 * i) % 16
  let sum := (st.a + f + md5K.getD i 0 + leWordAt block g) % M32
  ⟨st.d, add32 st.b (rotl32 sum (md5s.getD i 0)), st.b, st.c⟩

/-- Process one 64-byte block: 64 rounds, then add the saved state. -/
def md5Block (st : MD5State) (block : List Nat) : MD5State :=
  let r := (List.range 64).foldl (md5Round block) st
  ⟨add32 st.a r.a, add32 st.b r.b, add32 st.c r.c, add32 st.d r.d⟩

/-- MD5 padding: append `0x80`, zero bytes to reach 56 mod 64, then the
original bit length as 8 little-endian bytes. -/
def padMsg (msg : List Nat) : List Nat :=
  let bl := 8 * msg.length
  let z := (56 + 64 - (msg.length + 1) % 64) % 64
  msg ++ [128] ++ List.replicate z 0 ++
    [bl % 256, bl / 256 % 256, bl / 65536 % 256, bl / 16777216 % 256,
     bl / 4294967296 % 256, bl / 1099511627776 % 256,
     bl / 281474976710656 % 256, bl / 72057594037927936 % 256]

/-- Split a byte list into 64-byte chunks (fuel-driven; the fuel is
always at least the number of chunks at every call site). -/
def chunks64 : Nat → List Nat → List (List Nat)
  | 0, _ => []
  | _, [] => []
  | fuel + 1, l => l.take 64 :: chunks64 fuel (l.drop 64)

/-- Final MD5 state of a byte message. -/
def md5Final (msg : List Nat) : MD5State :=
  let p := padMsg msg
  (chunks64 p.length p).foldl md5Block md5Init

/-- The four little-endian bytes of a 32-bit word. -/
def wordBytes (w : Nat) : List Nat :=
  [w % 256, w / 256 % 256, w / 65536 % 256, w / 16777216 % 256]

/-- The 16 digest bytes of an MD5 state. -/
def stateBytes (s : MD5State) : List Nat :=
  wordBytes s.a ++ wordBytes s.b ++ wordBytes s.c ++ wordBytes s.d

/-- The sixteen lowercase hexadecimal digit characters. -/
def hexDigits : List Char := "0123456789abcdef".data

/-- Lowercase hexadecimal digit for a nibble value. -/
def hexDigit (n : Nat) : Char := hexDigits.getD n '0'

/-- Two lowercase hexadecimal characters for a byte value. -/
def byteToHex (b : Nat) : List Char := [hexDigit (b / 16 % 16), hexDigit (b % 16)]

/-- Lowercase hexadecimal MD5 digest of a byte message
(model of `hashlib.md5(bytes).hexdigest()`). -/
def md5Hex (msg : List Nat) : String :=
  ⟨(stateBytes (md5Final msg)).flatMap byteToHex⟩

/-! ### Signing constants and the signed payload
(source lines 82-83 and 95-96). -/

/-- The application key constant `_APP_KEY` (source line 82). -/
def APP_KEY : String := "6f90a59ac58a4123"

/-- The shared secret constant `_BILIBILI_KEY` (source line 83). -/
def BILIBILI_KEY : String := "0bfd84cc3940035173f35e6777508326"

/-- The request payload built for an embedded id `cid`
(source line 95: `'appkey=%s&cid=%s&otype=json&quality=2&type=mp4'`). -/
def payload (cid : String) : String :=
  "appkey=" ++ APP_KEY ++ "&cid=" ++ cid ++ "&otype=json&quality=2&type=mp4"

/-- The request signature for an embedded id (source line 96:
`hashlib.md5((payload + self._BILIBILI_KEY).encode('utf-8')).hexdigest()`). -/
def sign (cid : String) : String :=
  md5Hex (utf8Bytes (payload cid ++ BILIBILI_KEY))

/-! ### Query-string parsing

`compat_parse_qs` lives in the host framework's `compat` module, not in
the extractor source file, so it is modelled from the spec. -/

/-- Numeric value of one hexadecimal character, if any. -/
def hexVal (c : Char) : Option Nat :=
  if '0' ≤ c ∧ c ≤ '9' then some (c.toNat - 48)
  else if 'a' ≤ c ∧ c ≤ 'f' then some (c.toNat - 87)
  else if 'A' ≤ c ∧ c ≤ 'F' then some (c.toNat - 55)
  else none

/-- Modelled from the spec: percent-decoding of URL-encoded text
(the `unquote` step inside the host's query-string parser). -/
def unquoteChars : List Char → List Char
  | [] => []
  | '%' :: h1 :: h2 :: rest =>
    match hexVal h1, hexVal h2 with
    | some a, some b => Char.ofNat (16 * a + b) :: unquoteChars rest
    | _, _ => '%' :: unquoteChars (h1 :: h2 :: rest)
  | '+' :: rest => ' ' :: unquoteChars rest
  | c :: rest => c :: unquoteChars rest

/-- Percent-decode a string. -/
def unquote (s : String) : String := ⟨unquoteChars s.data⟩

/-- Append a key/value pair to an ordered multi-map, grouping values
under the first occurrence of the key. -/
def addQS (m : List (String × List String)) (k v : String) :
    List (String × List String) :=
  match m with
  | [] => [(k, [v])]
  | (k', vs) :: rest =>
    if k' = k then (k', vs ++ [v]) :: rest else (k', vs) :: addQS rest k v

/-- Split a character list on a separator character. -/
def splitOnChar (sep : Char) : List Char → List (List Char)
  | [] => [[]]
  | c :: cs =>
    if c = sep then [] :: splitOnChar sep cs
    else
      match splitOnChar sep cs with
      | [] => [[c]]
      | f :: rest => (c :: f) :: rest

/-- Split one query-string field at its first `=`, if any
(model of Python's `field.split('=', 1)`). -/
def splitKV : List Char → Option (List Char × List Char)
  | [] => none
  | c :: cs =>
    if c = '=' then some ([], cs)
    else
      match splitKV cs with
      | none => none
      | some (k, v) => some (c :: k, v)

/-- Modelled from the spec: the host helper `compat_parse_qs`, which
parses a URL-encoded query string into a map from key to list of values.
Fields are separated by `&`, each field splits at its first `=`, fields
without a value (or without an `=`) are dropped (the stdlib default),
and keys and values are percent-decoded. -/
def parseQS (s : String) : List (String × List String) :=
  (splitOnChar '&' s.data).foldl
    (fun m field =>
      match splitKV field with
      | none => m
      | some (k, v) =>
        if v = [] then m else addQS m (unquote ⟨k⟩) (unquote ⟨v⟩))
    []

/-! ### Errors, regex-search oracle, host search helpers -/

/-- How an extraction can abort:
a structured "Unable to extract ..." error raised by the host's
`_search_regex` on a fatal miss, an unguarded Python dictionary
subscript (`KeyError`), or an unguarded list subscript (`IndexError`). -/
inductive ExtractError where
  | regexNotFound (name : String)
  | keyError (key : String)
  | indexError
deriving Repr, DecidableEq

/-- The capabilities the host framework supplies to the extractor.
Regular-expression matching itself is the Python `re` library, so it is
an oracle here: `reSearch pat text` is the first capture group of the
first match of `pat` in `text`, if any; `reSearchPair` is the same for
the two-group uploader pattern, returning (group `id`, group `name`);
`searchMeta name text` is the host's `_html_search_meta`;
`unifiedTimestamp` is the host's flexible date-string parser. -/
structure Host where
  reSearch : String → String → Option String
  reSearchPair : String → String → Option (String × String)
  searchMeta : String → String → Option String
  unifiedTimestamp : String → Option Int

/-- Modelled from the spec: the host helper `_search_regex` with
`fatal=True` — try the patterns in order, first match wins; raise the
structured "not found" error if none matches. -/
def searchRegexFatal (re : String → String → Option String)
    (patterns : List String) (text name : String) : Except ExtractError String :=
  match patterns.findSome? (fun p => re p text) with
  | some s => Except.ok s
  | none => Except.error (ExtractError.regexNotFound name)

/-- Modelled from the spec: the host helper `_search_regex` with
`fatal=False` — a miss is non-fatal and surfaces a user-visible warning
instead. -/
def searchRegexWarn (re : String → String → Option String)
    (patterns : List String) (text name : String) : Option String × List String :=
  match patterns.findSome? (fun p => re p text) with
  | some s => (some s, [])
  | none => (none, ["unable to extract " ++ name])

/-! ### The extractor's regular-expression pattern constants
(verbatim from the source; backslashes doubled for Lean escaping). -/

/-- Player-parameters pattern A (source line 91). -/
def playerPatternA : String := "EmbedPlayer\\([^)]+,\\s*\"([^\"]+)\"\\)"

/-- Player-parameters pattern B (source line 92). -/
def playerPatternB : String :=
  "<iframe[^>]+src=\"https://secure\\.bilibili\\.com/secure,([^\"]+)\""

/-- Title pattern (source line 124). -/
def titlePattern : String := "<h1[^>]+title=\"([^\"]+)\">"

/-- Upload-time pattern (source line 126). -/
def timePattern : String := "<time[^>]+datetime=\"([^\"]+)\""

/-- Uploader pattern (source lines 139-141). -/
def uploaderPattern : String :=
  "<a[^>]+href=\"https?://space\\.bilibili\\.com/(?P<id>\\d+)\"[^>]+title=\"(?P<name>[^\"]+)\""

/-! ### Embedded-id (cid) extraction (source lines 90-93) -/

/-- The unguarded `['cid'][0]` applied to a parsed query string:
a missing key is a `KeyError`, an empty value list an `IndexError`. -/
def qsFirstCid (frag : String) : Except ExtractError String :=
  match (parseQS frag).lookup "cid" with
  | none => Except.error (ExtractError.keyError "cid")
  | some [] => Except.error ExtractError.indexError
  | some (c :: _) => Except.ok c

/-- Source lines 90-93: find the player-parameters fragment (pattern A
first, pattern B only if A is absent), parse it as a query string and
take the first `cid` value by unguarded subscripts. -/
def extractCid (re : String → String → Option String) (webpage : String) :
    Except ExtractError String :=
  match searchRegexFatal re [playerPatternA, playerPatternB] webpage
      "player parameters" with
  | Except.error e => Except.error e
  | Except.ok frag => qsFirstCid frag

/-! ### Stream-descriptor data model and format resolution -/

/-- A JSON scalar as seen by the numeric coercion helper (only the
shapes that occur for the `size` field matter: an integer or `null`). -/
inductive JVal where
  | null
  | int (n : Int)
deriving Repr, DecidableEq

/-- Modelled from the spec: the host coercion helper `int_or_none`,
tolerant of missing (`null`) input. -/
def int_or_none : JVal → Option Int
  | JVal.int n => some n
  | JVal.null => none

/-- Modelled from the spec: the host coercion helper `float_or_none`
with a scale divisor; durations are modelled as exact rationals. -/
def float_or_none (v : Option Int) (scale : Nat) : Option Rat :=
  v.map (fun n => (n : Rat) / (scale : Rat))

/-- One record of the API's `durl` array. `size := none` means the
`size` KEY is absent from the JSON object (its subscript raises), while
`size := some JVal.null` means the key is present with value `null`.
For `length` the source uses `durl.get('length')`, which collapses an
absent key and `null` to the same `None`, so a single `Option` suffices.
The `url` and `backup_url` keys are taken as present (no claim concerns
their absence). -/
structure DurlRecord where
  url : String
  size : Option JVal
  length : Option Int
  backup_url : List String
deriving Repr, DecidableEq

/-- One format dictionary: unset optional fields model absent keys. -/
structure Format where
  url : String
  filesize : Option Int := none
  preference : Option Int := none
deriving Repr, DecidableEq

/-- Source lines 105-114: the raw format list of one durl record — the
primary URL with its coerced filesize (unguarded `durl['size']`
subscript), then one entry per backup URL with preference −2 when the
URL contains `hd.mp4` and −3 otherwise. -/
def rawFormats (d : DurlRecord) : Except ExtractError (List Format) :=
  match d.size with
  | none => Except.error (ExtractError.keyError "size")
  | some v =>
    Except.ok
      ({ url := d.url, filesize := int_or_none v, preference := none } ::
        d.backup_url.map (fun b =>
          { url := b, filesize := none,
            preference := some (if strContains b "hd.mp4" then -2 else -3) }))

/-- Effective sort key of a format: an unset preference counts as `0`,
above both backup tiers. -/
def effPref (f : Format) : Int := (f.preference).getD 0

/-- Stable descending insertion (`insertFmt f l` keeps `f` before any
element of equal key). -/
def insertFmt (f : Format) : List Format → List Format
  | [] => [f]
  | g :: gs =>
    if effPref f < effPref g then g :: insertFmt f gs else f :: g :: gs

/-- Modelled from the spec: the host format canonicalizer
`_sort_formats` — a stable sort, descending by preference, with an
unset preference ranking above both backup tiers. -/
def sortFormats : List Format → List Format
  | [] => []
  | f :: fs => insertFmt f (sortFormats fs)

/-- Source lines 105-116: resolve and rank the formats of one record. -/
def formatsOf (d : DurlRecord) : Except ExtractError (List Format) :=
  match rawFormats d with
  | Except.error e => Except.error e
  | Except.ok l => Except.ok (sortFormats l)

/-! ### Entry assembly (source lines 102-163) -/

/-- The per-part dictionary built inside the durl loop
(source lines 118-122), before metadata is merged in. -/
structure PartEntry where
  id : String
  duration : Option Rat
  formats : List Format
deriving Repr, DecidableEq

/-- Source lines 118-122: the entry appended for the record at 0-based
index `idx`. -/
def buildEntry0 (videoId : String) (idx : Nat) (d : DurlRecord) :
    Except ExtractError PartEntry :=
  match formatsOf d with
  | Except.error e => Except.error e
  | Except.ok fmts =>
    Except.ok
      { id := videoId ++ "_part" ++ toString idx,
        duration := float_or_none d.length 1000,
        formats := fmts }

/-- Source lines 102-122: the `for idx, durl in enumerate(...)` loop,
with `idx` threaded explicitly. -/
def buildEntries (videoId : String) (idx : Nat) :
    List DurlRecord → Except ExtractError (List PartEntry)
  | [] => Except.ok []
  | d :: rest =>
    match buildEntry0 videoId idx d with
    | Except.error e => Except.error e
    | Except.ok e =>
      match buildEntries videoId (idx + 1) rest with
      | Except.error e' => Except.error e'
      | Except.ok es => Except.ok (e :: es)

/-- The parsed stream-descriptor JSON. `durl := none` models an absent
`durl` key (the `video_info['durl']` subscript raises); `timelength`
is read with `.get`, collapsing absent and `null`. -/
structure VideoInfo where
  durl : Option (List DurlRecord)
  timelength : Option Int
deriving Repr, DecidableEq

/-- The `info` dictionary of source lines 130-146 (with the uploader
keys present only when the uploader pattern matched). -/
structure Info where
  id : String
  title : String
  description : Option String
  timestamp : Option Int
  thumbnail : Option String
  duration : Option Rat
  uploader : Option String
  uploader_id : Option String
deriving Repr, DecidableEq

/-- A fully merged result entry (the keys of `entry` after
`entry.update(info)`). -/
structure Entry where
  id : String
  duration : Option Rat
  formats : List Format
  title : String
  description : Option String
  timestamp : Option Int
  thumbnail : Option String
  uploader : Option String
  uploader_id : Option String
deriving Repr, DecidableEq

/-- Source lines 148-149: `entry.update(info)`. Python's `dict.update`
overwrites every key present in `info`, so the merged entry takes `id`
and `duration` (and all metadata fields) from `info` and keeps only
`formats` from the part entry. -/
def updateEntry (e : PartEntry) (i : Info) : Entry :=
  { id := i.id, duration := i.duration, formats := e.formats,
    title := i.title, description := i.description,
    timestamp := i.timestamp, thumbnail := i.thumbnail,
    uploader := i.uploader, uploader_id := i.uploader_id }

/-- Source lines 130-146: the `info` dictionary assembled from the
scraped page and the descriptor's total `timelength`. -/
def scrapeInfo (h : Host) (videoId webpage : String) (vi : VideoInfo)
    (title : String) : Info :=
  { id := videoId, title := title,
    description := h.searchMeta "description" webpage,
    timestamp :=
      ((searchRegexWarn h.reSearch [timePattern] webpage "upload time").1).bind
        h.unifiedTimestamp,
    thumbnail := h.searchMeta "thumbnailUrl" webpage,
    duration := float_or_none vi.timelength 1000,
    uploader := (h.reSearchPair uploaderPattern webpage).map (fun m => m.2),
    uploader_id := (h.reSearchPair uploaderPattern webpage).map (fun m => m.1) }

/-- The warnings surfaced during scraping (only the non-fatal
upload-time search can warn). -/
def scrapeWarnings (h : Host) (webpage : String) : List String :=
  (searchRegexWarn h.reSearch [timePattern] webpage "upload time").2

/-- Source lines 154-155: the multi-part renumbering loop
`entry['id'] = '%s_part%d' % (video_id, idx + 1)`, with the running
0-based index `idx` threaded explicitly. -/
def renumberEntries (videoId : String) (idx : Nat) : List Entry → List Entry
  | [] => []
  | e :: rest =>
    { e with id := videoId ++ "_part" ++ toString (idx + 1) } ::
      renumberEntries videoId (idx + 1) rest

/-- The two output shapes of the extractor: a single entry returned
directly, or the `'_type': 'multi_video'` collection wrapper. -/
inductive FinalResult where
  | single (e : Entry)
  | multiVideo (id : String) (title : String) (description : Option String)
      (entries : List Entry)
deriving Repr, DecidableEq

/-- Shallow embedding of `BiliBiliIE._real_extract` (source lines
85-163), given the already-matched video id, the fetched page text and
the already-fetched-and-parsed stream descriptor. Besides the final
result it returns the warnings surfaced along the way. -/
def realExtract (h : Host) (videoId webpage : String) (vi : VideoInfo) :
    Except ExtractError (FinalResult × List String) :=
  match extractCid h.reSearch webpage with
  | Except.error e => Except.error e
  | Except.ok cid =>
    -- source lines 95-100: the signed request URL; the download itself
    -- is performed by the host, whose parsed response is `vi`
    let _requestUrl :=
      "http://interface.bilibili.com/playurl?" ++ payload cid ++ "&sign=" ++
        sign cid
    match vi.durl with
    | none => Except.error (ExtractError.keyError "durl")
    | some durls =>
      match buildEntries videoId 0 durls with
      | Except.error e => Except.error e
      | Except.ok pes =>
        match searchRegexFatal h.reSearch [titlePattern] webpage "title" with
        | Except.error e => Except.error e
        | Except.ok title =>
          let info := scrapeInfo h videoId webpage vi title
          let warns := scrapeWarnings h webpage
          let entries := pes.map (fun e => updateEntry e info)
          match entries with
          | [e] => Except.ok (FinalResult.single e, warns)
          | es =>
            Except.ok
              (FinalResult.multiVideo videoId title info.description
                (renumberEntries videoId 0 es), warns)

/-! ### Digest-shape lemmas -/

/-- Every character produced by `hexDigit` is a lowercase hex digit. -/
theorem hexDigit_mem (n : Nat) : hexDigit n ∈ hexDigits := by
  unfold hexDigit
  by_cases h : n < hexDigits.length
  · rw [List.getD_eq_getElem _ _ h]
    exact List.getElem_mem h
  · rw [List.getD_eq_default _ _ (Nat.le_of_not_lt h)]
    decide

/-- Every character produced by `byteToHex` is a lowercase hex digit. -/
theorem mem_byteToHex {c : Char} {b : Nat} (h : c ∈ byteToHex b) :
    c ∈ hexDigits := by
  simp only [byteToHex, List.mem_cons, List.not_mem_nil, or_false] at h
  rcases h with h | h <;> (subst h; exact hexDigit_mem _)

/-- Hex rendering doubles the byte count. -/
theorem length_flatMap_byteToHex (bs : List Nat) :
    (bs.flatMap byteToHex).length = 2 * bs.length := by
  induction bs with
  | nil => rfl
  | cons b bs ih =>
    simp only [List.flatMap_cons, List.length_append, ih, byteToHex,
      List.length_cons, List.length_nil]
    omega

/-- An MD5 state always renders to 16 digest bytes. -/
theorem length_stateBytes (s : MD5State) : (stateBytes s).length = 16 := by
  simp [stateBytes, wordBytes]

/-- An MD5 hex digest always has 32 characters. -/
theorem md5Hex_length (msg : List Nat) : (md5Hex msg).length = 32 := by
  show ((stateBytes (md5Final msg)).flatMap byteToHex).length = 32
  rw [length_flatMap_byteToHex, length_stateBytes]

/-- Every character of an MD5 hex digest is a lowercase hex digit. -/
theorem md5Hex_mem (msg : List Nat) : ∀ c ∈ (md5Hex msg).data, c ∈ hexDigits := by
  intro c hc
  have h : c ∈ (stateBytes (md5Final msg)).flatMap byteToHex := hc
  rcases List.mem_flatMap.1 h with ⟨b, _, hb⟩
  exact mem_byteToHex hb

set_option maxRecDepth 100000 in
/-- Sanity check of the MD5 model against a published test vector. -/
theorem md5_vector_abc :
    md5Hex (utf8Bytes "abc") = "900150983cd24fb0d6963f7d28e17f72" := by rfl

set_option maxRecDepth 100000 in
/-- Sanity check of the MD5 model against a second published vector. -/
theorem md5_vector_empty :
    md5Hex (utf8Bytes "") = "d41d8cd98f00b204e9800998ecf8427e" := by rfl

/-- Claim C4: for every embedded id `cid`, the signed request is built
from the payload string `appkey=<key>&cid=<cid>&otype=json&quality=2&type=mp4`
with exactly that key order, and its `sign` parameter equals the MD5
digest (32-character lowercase hexadecimal) of the UTF-8 bytes of the
payload concatenated with the fixed secret; the signature is a
deterministic function of the payload. -/
theorem claim_C4_sign (cid : String) :
    payload cid =
      "appkey=" ++ APP_KEY ++ "&cid=" ++ cid ++ "&otype=json&quality=2&type=mp4"
    ∧ sign cid = md5Hex (utf8Bytes (payload cid ++ BILIBILI_KEY))
    ∧ (sign cid).length = 32
    ∧ (∀ c ∈ (sign cid).data, c ∈ hexDigits)
    ∧ (∀ cid2, payload cid = payload cid2 → sign cid = sign cid2) := by
  refine ⟨rfl, rfl, md5Hex_length _, md5Hex_mem _, ?_⟩
  intro cid2 hp
  unfold sign
  rw [hp]

set_option maxRecDepth 100000 in
/-- Witness for C4: the claim instantiated at the concrete id `12345`,
with the signature value computed in full. -/
theorem claim_C4_sign_witness :
    (payload "12345" =
      "appkey=" ++ APP_KEY ++ "&cid=" ++ "12345" ++ "&otype=json&quality=2&type=mp4"
    ∧ sign "12345" = md5Hex (utf8Bytes (payload "12345" ++ BILIBILI_KEY))
    ∧ (sign "12345").length = 32
    ∧ (∀ c ∈ (sign "12345").data, c ∈ hexDigits)
    ∧ (∀ cid2, payload "12345" = payload cid2 → sign "12345" = sign cid2))
    ∧ sign "12345" = "31b30c61ba0d5bb1f2b9d4d585013080" :=
  ⟨claim_C4_sign "12345", by rfl⟩

/-! ### Format-resolver lemmas (claims C5 and C6) -/

/-- Inserting one format grows the list by one. -/
theorem length_insertFmt (f : Format) (l : List Format) :
    (insertFmt f l).length = l.length + 1 := by
  induction l with
  | nil => rfl
  | cons g gs ih =>
    unfold insertFmt
    split
    · simp [ih]
    · simp

/-- The format sort preserves length. -/
theorem length_sortFormats (l : List Format) :
    (sortFormats l).length = l.length := by
  induction l with
  | nil => rfl
  | cons f fs ih => simp [sortFormats, length_insertFmt, ih]

/-- Claim C5: for every durl record with `n` backup URLs, the resolver
produces exactly `1 + n` formats — the primary URL with the record's
filesize and no preference, then one format per backup URL with no
filesize and preference −2 when the URL contains `hd.mp4`, −3
otherwise; a record with zero backups yields exactly one format. -/
theorem claim_C5_formats (d : DurlRecord) (v : JVal) (hsize : d.size = some v) :
    rawFormats d =
      Except.ok
        ({ url := d.url, filesize := int_or_none v, preference := none } ::
          d.backup_url.map (fun b =>
            { url := b, filesize := none,
              preference := some (if strContains b "hd.mp4" then -2 else -3) }))
    ∧ (∀ l, rawFormats d = Except.ok l → l.length = 1 + d.backup_url.length)
    ∧ (∀ l, formatsOf d = Except.ok l → l.length = 1 + d.backup_url.length)
    ∧ (d.backup_url = [] →
        rawFormats d =
          Except.ok [{ url := d.url, filesize := int_or_none v, preference := none }]) := by
  have hraw :
      rawFormats d =
        Except.ok
          ({ url := d.url, filesize := int_or_none v, preference := none } ::
            d.backup_url.map (fun b =>
              { url := b, filesize := none,
                preference := some (if strContains b "hd.mp4" then -2 else -3) })) := by
    simp [rawFormats, hsize]
  refine ⟨hraw, ?_, ?_, ?_⟩
  · intro l hl
    rw [hraw] at hl
    cases hl
    simp [Nat.add_comm]
  · intro l hl
    unfold formatsOf at hl
    rw [hraw] at hl
    cases hl
    simp [length_sortFormats, Nat.add_comm]
  · intro hbk
    rw [hraw, hbk]
    rfl

/-- Witness for C5: a record with one `hd.mp4` backup and a record with
no backups, evaluated concretely. -/
theorem claim_C5_formats_witness :
    rawFormats
        { url := "http://x/a.mp4", size := some (JVal.int 100),
          length := some 5000, backup_url := ["http://x/a_hd.mp4"] } =
      Except.ok
        ({ url := "http://x/a.mp4", filesize := int_or_none (JVal.int 100),
           preference := none } ::
          ["http://x/a_hd.mp4"].map (fun b =>
            { url := b, filesize := none,
              preference := some (if strContains b "hd.mp4" then -2 else -3) })) :=
  (claim_C5_formats
    { url := "http://x/a.mp4", size := some (JVal.int 100),
      length := some 5000, backup_url := ["http://x/a_hd.mp4"] }
    (JVal.int 100) rfl).1

/-- Claim C6: for a record whose backups are `[b1 containing hd.mp4,
b2 not containing it]`, the ranked format list attached to the entry is
`[primary, b1, b2]` — the primary (unset preference) above both backup
tiers, the −2 tier above the −3 tier, ties broken by original order. -/
theorem claim_C6_order (d : DurlRecord) (v : JVal) (b1 b2 : String)
    (hsize : d.size = some v) (hbk : d.backup_url = [b1, b2])
    (h1 : strContains b1 "hd.mp4" = true)
    (h2 : strContains b2 "hd.mp4" = false) :
    formatsOf d =
      Except.ok
        [{ url := d.url, filesize := int_or_none v, preference := none },
         { url := b1, filesize := none, preference := some (-2) },
         { url := b2, filesize := none, preference := some (-3) }] := by
  simp only [formatsOf, rawFormats, hsize, hbk, List.map_cons, List.map_nil,
    h1, h2]
  rfl

/-- Witness for C6: concrete backups, one flagged `hd.mp4`. -/
theorem claim_C6_order_witness :
    formatsOf
        { url := "http://x/a.mp4", size := some (JVal.int 100),
          length := some 5000,
          backup_url := ["http://x/a_hd.mp4", "http://x/plain.flv"] } =
      Except.ok
        [{ url := "http://x/a.mp4", filesize := int_or_none (JVal.int 100),
           preference := none },
         { url := "http://x/a_hd.mp4", filesize := none, preference := some (-2) },
         { url := "http://x/plain.flv", filesize := none, preference := some (-3) }] :=
  claim_C6_order
    { url := "http://x/a.mp4", size := some (JVal.int 100),
      length := some 5000,
      backup_url := ["http://x/a_hd.mp4", "http://x/plain.flv"] }
    (JVal.int 100) "http://x/a_hd.mp4" "http://x/plain.flv" rfl rfl (by rfl) (by rfl)

/-! ### Entry-assembly lemmas -/

/-- Successful format resolution determines the built part entry. -/
theorem buildEntry0_ok (videoId : String) (idx : Nat) (d : DurlRecord)
    (fmts : List Format) (hfmts : formatsOf d = Except.ok fmts) :
    buildEntry0 videoId idx d =
      Except.ok
        { id := videoId ++ "_part" ++ toString idx,
          duration := float_or_none d.length 1000, formats := fmts } := by
  unfold buildEntry0
  rw [hfmts]

/-- A successful loop over a cons cell decomposes into its head step and
the loop over the tail. -/
theorem buildEntries_cons (videoId : String) (k : Nat) (d : DurlRecord)
    (rest : List DurlRecord) (out : List PartEntry)
    (hbe : buildEntries videoId k (d :: rest) = Except.ok out) :
    ∃ pe out', buildEntry0 videoId k d = Except.ok pe
      ∧ buildEntries videoId (k + 1) rest = Except.ok out'
      ∧ out = pe :: out' := by
  unfold buildEntries at hbe
  cases h1 : buildEntry0 videoId k d with
  | error e => rw [h1] at hbe; cases hbe
  | ok pe =>
    rw [h1] at hbe
    cases h2 : buildEntries videoId (k + 1) rest with
    | error e' => rw [h2] at hbe; cases hbe
    | ok out' =>
      rw [h2] at hbe
      cases hbe
      exact ⟨pe, out', rfl, rfl, rfl⟩

/-- A successful durl loop yields as many part entries as records. -/
theorem buildEntries_length (videoId : String) (k : Nat)
    (l : List DurlRecord) (out : List PartEntry)
    (hbe : buildEntries videoId k l = Except.ok out) :
    out.length = l.length := by
  induction l generalizing k out with
  | nil =>
    unfold buildEntries at hbe
    cases hbe
    rfl
  | cons d rest ih =>
    rcases buildEntries_cons videoId k d rest out hbe with ⟨pe, out', _, h2, h3⟩
    subst h3
    simp [ih (k + 1) out' h2]

/-- After a successful durl loop, the part entry at index `i` is built
from the record at index `i` (with the running index offset `k`):
the loop preserves the order of the `durl` array. -/
theorem buildEntries_getD (videoId : String) (k : Nat)
    (l : List DurlRecord) (out : List PartEntry)
    (hbe : buildEntries videoId k l = Except.ok out)
    (i : Nat) (hi : i < l.length) (dflD : DurlRecord) (dflP : PartEntry) :
    buildEntry0 videoId (k + i) (l.getD i dflD) = Except.ok (out.getD i dflP) := by
  induction l generalizing k i out with
  | nil => exact absurd hi (by simp)
  | cons d rest ih =>
    rcases buildEntries_cons videoId k d rest out hbe with ⟨pe, out', h1, h2, h3⟩
    subst h3
    cases i with
    | zero => simpa using h1
    | succ j =>
      have hj : j < rest.length := Nat.lt_of_succ_lt_succ hi
      have h := ih (k + 1) out' h2 j hj
      have harg : k + 1 + j = k + (j + 1) := by omega
      rw [harg] at h
      rw [List.getD_cons_succ, List.getD_cons_succ]
      exact h

/-- Renumbering preserves length. -/
theorem renumberEntries_length (videoId : String) (k : Nat) (l : List Entry) :
    (renumberEntries videoId k l).length = l.length := by
  induction l generalizing k with
  | nil => rfl
  | cons e es ih => simp [renumberEntries, ih]

/-- Renumbering rewrites the id at index `i` to the 1-based
`"<videoId>_part<k+i+1>"` and leaves every other field unchanged. -/
theorem renumberEntries_getD (videoId : String) (k i : Nat) (l : List Entry)
    (dfl : Entry) (hi : i < l.length) :
    (renumberEntries videoId k l).getD i dfl =
      { l.getD i dfl with id := videoId ++ "_part" ++ toString (k + i + 1) } := by
  induction l generalizing k i with
  | nil => exact absurd hi (by simp)
  | cons e es ih =>
    cases i with
    | zero => rfl
    | succ j =>
      have hj : j < es.length := Nat.lt_of_succ_lt_succ hi
      have harg : k + 1 + j + 1 = k + (j + 1) + 1 := by omega
      have := ih (k + 1) j hj
      simpa [renumberEntries, harg] using this

/-- Master lemma, single-part shape: when the cid step, the single durl
record's format resolution and the title search all succeed, the
extraction returns the single merged entry directly — with its `id` and
`duration` taken from the merged `info` dictionary (`dict.update`
overwrites both), not from the part entry built in the loop. -/
theorem realExtract_single (h : Host) (videoId webpage : String)
    (vi : VideoInfo) (d : DurlRecord) (cid t : String) (fmts : List Format)
    (hcid : extractCid h.reSearch webpage = Except.ok cid)
    (hdurl : vi.durl = some [d])
    (hfmts : formatsOf d = Except.ok fmts)
    (htitle : searchRegexFatal h.reSearch [titlePattern] webpage "title" =
      Except.ok t) :
    realExtract h videoId webpage vi =
      Except.ok
        (FinalResult.single
          { id := videoId,
            duration := float_or_none vi.timelength 1000,
            formats := fmts,
            title := t,
            description := h.searchMeta "description" webpage,
            timestamp :=
              ((searchRegexWarn h.reSearch [timePattern] webpage
                "upload time").1).bind h.unifiedTimestamp,
            thumbnail := h.searchMeta "thumbnailUrl" webpage,
            uploader :=
              (h.reSearchPair uploaderPattern webpage).map (fun m => m.2),
            uploader_id :=
              (h.reSearchPair uploaderPattern webpage).map (fun m => m.1) },
         scrapeWarnings h webpage) := by
  have hbe : buildEntries videoId 0 [d] =
      Except.ok
        [{ id := videoId ++ "_part" ++ toString 0,
           duration := float_or_none d.length 1000, formats := fmts }] := by
    unfold buildEntries
    rw [buildEntry0_ok videoId 0 d fmts hfmts]
    rfl
  simp only [realExtract, hcid, hdurl, hbe, htitle, scrapeInfo, updateEntry,
    List.map_cons, List.map_nil]

/-- Master lemma, multi-part shape: when the cid step, the durl loop
over at least two records and the title search all succeed, the
extraction returns the `multi_video` wrapper built from the renumbered
merged entries. -/
theorem realExtract_multi (h : Host) (videoId webpage : String)
    (vi : VideoInfo) (durls : List DurlRecord) (cid t : String)
    (pes : List PartEntry) (p1 p2 : PartEntry) (prest : List PartEntry)
    (hcid : extractCid h.reSearch webpage = Except.ok cid)
    (hdurl : vi.durl = some durls)
    (hbe : buildEntries videoId 0 durls = Except.ok pes)
    (hpes : pes = p1 :: p2 :: prest)
    (htitle : searchRegexFatal h.reSearch [titlePattern] webpage "title" =
      Except.ok t) :
    realExtract h videoId webpage vi =
      Except.ok
        (FinalResult.multiVideo videoId t (h.searchMeta "description" webpage)
          (renumberEntries videoId 0
            (pes.map (fun e =>
              updateEntry e (scrapeInfo h videoId webpage vi t)))),
         scrapeWarnings h webpage) := by
  subst hpes
  simp only [realExtract, hcid, hdurl, hbe, htitle, List.map_cons, scrapeInfo]

/-! ### Concrete fixtures for counterexamples and witnesses -/

/-- A concrete host oracle: pattern A matches with fragment
`cid=12345`, the title pattern matches with `TITLE`, and every other
search (including the upload-time pattern) misses. -/
def hostA : Host :=
  { reSearch := fun p _ =>
      if p = playerPatternA then some "cid=12345"
      else if p = titlePattern then some "TITLE" else none,
    reSearchPair := fun _ _ => none,
    searchMeta := fun _ _ => none,
    unifiedTimestamp := fun _ => none }

/-- A host where pattern A matches but the fragment has no `cid` key. -/
def hostNoCid : Host :=
  { hostA with
    reSearch := fun p _ =>
      if p = playerPatternA then some "foo=1"
      else if p = titlePattern then some "TITLE" else none }

/-- A host where neither player-parameters pattern matches. -/
def hostNoPlayer : Host :=
  { hostA with
    reSearch := fun p _ => if p = titlePattern then some "TITLE" else none }

/-- A durl record with a byte size, a 5000 ms length and one `hd.mp4`
backup URL. -/
def durl1 : DurlRecord :=
  { url := "http://x/a.mp4", size := some (JVal.int 100),
    length := some 5000, backup_url := ["http://x/a_hd.mp4"] }

/-- A durl record whose `size` key is present but `null`. -/
def durl2 : DurlRecord :=
  { url := "http://x/b.mp4", size := some JVal.null,
    length := none, backup_url := [] }

/-- A durl record whose `size` KEY is absent. -/
def durlNoSize : DurlRecord :=
  { url := "http://x/c.mp4", size := none,
    length := some 1000, backup_url := [] }

/-- A descriptor with a single part and no total `timelength`. -/
def viSingle : VideoInfo := { durl := some [durl1], timelength := none }

/-- A descriptor with two parts and a total `timelength`. -/
def viMulti : VideoInfo := { durl := some [durl1, durl2], timelength := some 9000 }

/-- A descriptor whose single part lacks the `size` key. -/
def viNoSize : VideoInfo := { durl := some [durlNoSize], timelength := none }

/-- The ranked formats of `durl1`. -/
def fmts1 : List Format :=
  [{ url := "http://x/a.mp4", filesize := some 100, preference := none },
   { url := "http://x/a_hd.mp4", filesize := none, preference := some (-2) }]

/-- The ranked formats of `durl2`. -/
def fmts2 : List Format :=
  [{ url := "http://x/b.mp4", filesize := none, preference := none }]

/-- The part entry built for `durl1` at index 0 under video id `42`. -/
def pe1 : PartEntry :=
  { id := "42_part0", duration := float_or_none durl1.length 1000,
    formats := fmts1 }

/-- The part entry built for `durl2` at index 1 under video id `42`. -/
def pe2 : PartEntry :=
  { id := "42_part1", duration := float_or_none durl2.length 1000,
    formats := fmts2 }

/-- The id of the entry of a single-part result, if the result has that
shape. -/
def singleId : Except ExtractError (FinalResult × List String) → Option String
  | Except.ok (FinalResult.single e, _) => some e.id
  | _ => none

/-- The duration of the entry of a single-part result, if the result
has that shape. -/
def singleDuration :
    Except ExtractError (FinalResult × List String) → Option (Option Rat)
  | Except.ok (FinalResult.single e, _) => some e.duration
  | _ => none

/-! ### Claim C1 -/

/-- Counterexample to claim C1: a concrete extraction whose `durl`
array has exactly one record does return a single entry directly, but
its id is the bare video id `1074402`, not `1074402_part0` — the
`entry.update(info)` merge overwrites the loop-assigned part id. -/
theorem claim_C1_counterexample :
    singleId (realExtract hostA "1074402" "PAGE" viSingle) = some "1074402"
    ∧ some "1074402" ≠ some ("1074402" ++ "_part0") :=
  ⟨by rfl, by decide⟩

/-- Claim C1 as amended: for every extraction where the `durl` array
has exactly one record (and the cid, format and title steps succeed),
the final result is that single entry returned directly with no
collection wrapper, and its id is the bare `"<videoId>"` — the
temporary `"<videoId>_part0"` id is overwritten by the metadata merge. -/
theorem claim_C1_amended (h : Host) (videoId webpage : String)
    (vi : VideoInfo) (d : DurlRecord) (cid t : String) (fmts : List Format)
    (hcid : extractCid h.reSearch webpage = Except.ok cid)
    (hdurl : vi.durl = some [d])
    (hfmts : formatsOf d = Except.ok fmts)
    (htitle : searchRegexFatal h.reSearch [titlePattern] webpage "title" =
      Except.ok t) :
    ∃ e, realExtract h videoId webpage vi =
        Except.ok (FinalResult.single e, scrapeWarnings h webpage)
      ∧ e.id = videoId ∧ e.formats = fmts :=
  ⟨_, realExtract_single h videoId webpage vi d cid t fmts hcid hdurl hfmts
    htitle, rfl, rfl⟩

/-- Witness for the amended C1 at concrete inputs. -/
theorem claim_C1_amended_witness :
    ∃ e, realExtract hostA "1074402" "PAGE" viSingle =
        Except.ok (FinalResult.single e, scrapeWarnings hostA "PAGE")
      ∧ e.id = "1074402" ∧ e.formats = fmts1 :=
  claim_C1_amended hostA "1074402" "PAGE" viSingle durl1 "12345" "TITLE" fmts1
    (by rfl) rfl (by rfl) (by rfl)

/-! ### Claim C2 -/

/-- Counterexample to claim C2: for a record whose `length` field is
present (5000 ms), the entry as it appears in the final result does not
have duration 5000/1000 — the metadata merge overwrote it with the
(absent) total `timelength`, leaving the duration unset. -/
theorem claim_C2_counterexample :
    durl1.length = some 5000
    ∧ singleDuration (realExtract hostA "1074402" "PAGE" viSingle) = some none
    ∧ some (none : Option Rat) ≠ some (some ((5000 : Rat) / 1000)) :=
  ⟨rfl, by rfl, by decide⟩

/-- Claim C2 as amended: the entry BUILT for the record at any index
`i` has duration `length/1000` when the `length` field is present and
unset otherwise; but in the final result — single-entry or multi-part
alike — every entry's duration has been overwritten by the metadata
merge with `timelength/1000` (unset when `timelength` is absent). -/
theorem claim_C2_amended (h : Host) (videoId webpage : String)
    (vi : VideoInfo) (durls : List DurlRecord) (cid t : String)
    (pes : List PartEntry)
    (hcid : extractCid h.reSearch webpage = Except.ok cid)
    (hdurl : vi.durl = some durls)
    (hbe : buildEntries videoId 0 durls = Except.ok pes)
    (htitle : searchRegexFatal h.reSearch [titlePattern] webpage "title" =
      Except.ok t) :
    (∀ (vid : String) (idx : Nat) (d : DurlRecord) (fmts : List Format),
      formatsOf d = Except.ok fmts →
      buildEntry0 vid idx d =
        Except.ok
          { id := vid ++ "_part" ++ toString idx,
            duration := float_or_none d.length 1000, formats := fmts })
    ∧ (∀ d, durls = [d] →
        ∃ e, realExtract h videoId webpage vi =
            Except.ok (FinalResult.single e, scrapeWarnings h webpage)
          ∧ e.duration = float_or_none vi.timelength 1000)
    ∧ (∀ p1 p2 prest, pes = p1 :: p2 :: prest →
        ∃ finalEntries,
          realExtract h videoId webpage vi =
            Except.ok
              (FinalResult.multiVideo videoId t
                (h.searchMeta "description" webpage) finalEntries,
               scrapeWarnings h webpage)
          ∧ ∀ i dflE, i < durls.length →
              (finalEntries.getD i dflE).duration =
                float_or_none vi.timelength 1000) := by
  refine ⟨fun vid idx d fmts hf => buildEntry0_ok vid idx d fmts hf, ?_, ?_⟩
  · intro d hd
    subst hd
    rcases buildEntries_cons videoId 0 d [] pes hbe with ⟨pe, out', h1, _, _⟩
    cases hf : formatsOf d with
    | error e =>
      unfold buildEntry0 at h1
      rw [hf] at h1
      cases h1
    | ok fmts =>
      exact ⟨_, realExtract_single h videoId webpage vi d cid t fmts hcid
        hdurl hf htitle, rfl⟩
  · intro p1 p2 prest hpes
    have hlenP : pes.length = durls.length := buildEntries_length _ _ _ _ hbe
    refine ⟨_, realExtract_multi h videoId webpage vi durls cid t pes p1 p2
      prest hcid hdurl hbe hpes htitle, ?_⟩
    intro i dflE hi
    have hiP : i < pes.length := by rw [hlenP]; exact hi
    have hiM : i < (pes.map (fun e =>
        updateEntry e (scrapeInfo h videoId webpage vi t))).length := by
      rw [List.length_map]; exact hiP
    rw [renumberEntries_getD _ 0 i _ dflE hiM]
    show ((pes.map (fun e =>
      updateEntry e (scrapeInfo h videoId webpage vi t))).getD i dflE).duration =
      float_or_none vi.timelength 1000
    rw [List.getD_eq_getElem _ _ hiM, List.getElem_map]
    rfl

/-- Witness for the amended C2: a concrete single-part extraction whose
final duration comes from (the absent) `timelength`, a concrete
two-part extraction where both final entries carry the total
`timelength/1000`, and the built entry at index 1 with its own
`length`-derived duration. -/
theorem claim_C2_amended_witness :
    (∃ e, realExtract hostA "1074402" "PAGE" viSingle =
        Except.ok (FinalResult.single e, scrapeWarnings hostA "PAGE")
      ∧ e.duration = float_or_none viSingle.timelength 1000)
    ∧ (∃ finalEntries,
        realExtract hostA "42" "PAGE" viMulti =
          Except.ok
            (FinalResult.multiVideo "42" "TITLE"
              (hostA.searchMeta "description" "PAGE") finalEntries,
             scrapeWarnings hostA "PAGE")
        ∧ ∀ i dflE, i < ([durl1, durl2] : List DurlRecord).length →
            (finalEntries.getD i dflE).duration =
              float_or_none viMulti.timelength 1000)
    ∧ buildEntry0 "42" 1 durl2 =
        Except.ok
          { id := "42" ++ "_part" ++ toString 1,
            duration := float_or_none durl2.length 1000, formats := fmts2 } :=
  ⟨(claim_C2_amended hostA "1074402" "PAGE" viSingle [durl1] "12345" "TITLE"
      [{ id := "1074402_part0", duration := float_or_none durl1.length 1000,
         formats := fmts1 }]
      (by rfl) rfl (by rfl) (by rfl)).2.1 durl1 rfl,
   (claim_C2_amended hostA "42" "PAGE" viMulti [durl1, durl2] "12345" "TITLE"
      [pe1, pe2] (by rfl) rfl (by rfl) (by rfl)).2.2 pe1 pe2 [] rfl,
   (claim_C2_amended hostA "42" "PAGE" viMulti [durl1, durl2] "12345" "TITLE"
      [pe1, pe2] (by rfl) rfl (by rfl) (by rfl)).1 "42" 1 durl2 fmts2 (by rfl)⟩

/-! ### Claim C3 -/

/-- Claim C3: for every extraction where the `durl` array has two or
more records (and the cid, per-record format and title steps succeed),
the final result is a collection wrapper carrying the video id, title,
description and the entries in exactly the `durl` array's order, with
the entry at 0-based index `i` given id `"<videoId>_part<i+1>"`. -/
theorem claim_C3_multi (h : Host) (videoId webpage : String)
    (vi : VideoInfo) (durls : List DurlRecord) (cid t : String)
    (pes : List PartEntry) (p1 p2 : PartEntry) (prest : List PartEntry)
    (hcid : extractCid h.reSearch webpage = Except.ok cid)
    (hdurl : vi.durl = some durls)
    (hbe : buildEntries videoId 0 durls = Except.ok pes)
    (hpes : pes = p1 :: p2 :: prest)
    (htitle : searchRegexFatal h.reSearch [titlePattern] webpage "title" =
      Except.ok t) :
    ∃ finalEntries,
      realExtract h videoId webpage vi =
        Except.ok
          (FinalResult.multiVideo videoId t
            (h.searchMeta "description" webpage) finalEntries,
           scrapeWarnings h webpage)
      ∧ finalEntries.length = durls.length
      ∧ (∀ i dflE, i < durls.length →
          (finalEntries.getD i dflE).id =
            videoId ++ "_part" ++ toString (i + 1))
      ∧ (∀ i dflE dflP, i < durls.length →
          (finalEntries.getD i dflE).formats = (pes.getD i dflP).formats)
      ∧ (∀ i dflD dflP, i < durls.length →
          buildEntry0 videoId i (durls.getD i dflD) =
            Except.ok (pes.getD i dflP)) := by
  have hlenP : pes.length = durls.length := buildEntries_length _ _ _ _ hbe
  refine ⟨_,
    realExtract_multi h videoId webpage vi durls cid t pes p1 p2 prest hcid
      hdurl hbe hpes htitle, ?_, ?_, ?_, ?_⟩
  · rw [renumberEntries_length, List.length_map, hlenP]
  · intro i dflE hi
    have hiM : i < (pes.map (fun e =>
        updateEntry e (scrapeInfo h videoId webpage vi t))).length := by
      rw [List.length_map, hlenP]; exact hi
    rw [renumberEntries_getD _ 0 i _ dflE hiM]
    rw [Nat.zero_add]
  · intro i dflE dflP hi
    have hiP : i < pes.length := by rw [hlenP]; exact hi
    have hiM : i < (pes.map (fun e =>
        updateEntry e (scrapeInfo h videoId webpage vi t))).length := by
      rw [List.length_map]; exact hiP
    rw [renumberEntries_getD _ 0 i _ dflE hiM]
    show ((pes.map (fun e =>
      updateEntry e (scrapeInfo h videoId webpage vi t))).getD i dflE).formats =
      (pes.getD i dflP).formats
    rw [List.getD_eq_getElem _ _ hiM, List.getElem_map,
      List.getD_eq_getElem _ _ hiP]
    rfl
  · intro i dflD dflP hi
    have := buildEntries_getD videoId 0 durls pes hbe i hi dflD dflP
    rwa [Nat.zero_add] at this

/-- Witness for C3 at concrete inputs with two parts. -/
theorem claim_C3_multi_witness :
    ∃ finalEntries,
      realExtract hostA "42" "PAGE" viMulti =
        Except.ok
          (FinalResult.multiVideo "42" "TITLE"
            (hostA.searchMeta "description" "PAGE") finalEntries,
           scrapeWarnings hostA "PAGE")
      ∧ finalEntries.length = ([durl1, durl2] : List DurlRecord).length
      ∧ (∀ i dflE, i < ([durl1, durl2] : List DurlRecord).length →
          (finalEntries.getD i dflE).id = "42" ++ "_part" ++ toString (i + 1))
      ∧ (∀ i dflE dflP, i < ([durl1, durl2] : List DurlRecord).length →
          (finalEntries.getD i dflE).formats =
            (([pe1, pe2] : List PartEntry).getD i dflP).formats)
      ∧ (∀ i dflD dflP, i < ([durl1, durl2] : List DurlRecord).length →
          buildEntry0 "42" i (([durl1, durl2] : List DurlRecord).getD i dflD) =
            Except.ok (([pe1, pe2] : List PartEntry).getD i dflP)) :=
  claim_C3_multi hostA "42" "PAGE" viMulti [durl1, durl2] "12345" "TITLE"
    [pe1, pe2] pe1 pe2 [] (by rfl) rfl (by rfl) rfl (by rfl)

/-! ### Claim C7 -/

/-- Claim C7: the embedded id is extracted by trying pattern A first
and pattern B only if A is absent, taking the first value of key `cid`
from the URL-decoded match; if neither pattern matches, the whole
extraction fails with the fatal structured "not found" error and no
final result is produced. -/
theorem claim_C7_cid (re : String → String → Option String) (h : Host)
    (videoId webpage : String) (vi : VideoInfo) :
    (∀ frag, re playerPatternA webpage = some frag →
      extractCid re webpage = qsFirstCid frag)
    ∧ (∀ frag, re playerPatternA webpage = none →
        re playerPatternB webpage = some frag →
        extractCid re webpage = qsFirstCid frag)
    ∧ (∀ frag c cs, (parseQS frag).lookup "cid" = some (c :: cs) →
        qsFirstCid frag = Except.ok c)
    ∧ (h.reSearch playerPatternA webpage = none →
        h.reSearch playerPatternB webpage = none →
        realExtract h videoId webpage vi =
          Except.error (ExtractError.regexNotFound "player parameters")) := by
  refine ⟨?_, ?_, ?_, ?_⟩
  · intro frag hA
    simp [extractCid, searchRegexFatal, List.findSome?_cons, hA]
  · intro frag hA hB
    simp [extractCid, searchRegexFatal, List.findSome?_cons, hA, hB]
  · intro frag c cs hl
    simp [qsFirstCid, hl]
  · intro hA hB
    simp [realExtract, extractCid, searchRegexFatal, List.findSome?_cons,
      hA, hB]

/-- Witness for C7: a fragment extracted through pattern A, and a
concrete extraction where neither pattern matches failing with the
structured "not found" error. -/
theorem claim_C7_cid_witness :
    extractCid hostA.reSearch "PAGE" = qsFirstCid "cid=12345"
    ∧ realExtract hostNoPlayer "1" "PAGE" viSingle =
        Except.error (ExtractError.regexNotFound "player parameters") :=
  ⟨(claim_C7_cid hostA.reSearch hostA "1" "PAGE" viSingle).1 "cid=12345"
      (by rfl),
   (claim_C7_cid hostNoPlayer.reSearch hostNoPlayer "1" "PAGE" viSingle).2.2.2
      (by rfl) (by rfl)⟩

/-! ### Claim C8 -/

/-- Claim C8: when the page has no `<time datetime=...>` match (and all
required fields are present), extraction still succeeds, the timestamp
field of the result is unset, and a user-visible warning indicator is
produced instead of a hard failure. -/
theorem claim_C8_no_time (h : Host) (videoId webpage : String)
    (vi : VideoInfo) (d : DurlRecord) (cid t : String) (fmts : List Format)
    (hcid : extractCid h.reSearch webpage = Except.ok cid)
    (hdurl : vi.durl = some [d])
    (hfmts : formatsOf d = Except.ok fmts)
    (htitle : searchRegexFatal h.reSearch [titlePattern] webpage "title" =
      Except.ok t)
    (htime : h.reSearch timePattern webpage = none) :
    ∃ e, realExtract h videoId webpage vi =
        Except.ok (FinalResult.single e, ["unable to extract upload time"])
      ∧ e.timestamp = none := by
  have hw : searchRegexWarn h.reSearch [timePattern] webpage "upload time" =
      (none, ["unable to extract upload time"]) := by
    simp [searchRegexWarn, List.findSome?_cons, htime]
  have hwarnEq : scrapeWarnings h webpage =
      ["unable to extract upload time"] := by
    unfold scrapeWarnings
    rw [hw]
  have hmain := realExtract_single h videoId webpage vi d cid t fmts hcid
    hdurl hfmts htitle
  refine ⟨_, by rw [hmain, hwarnEq], ?_⟩
  show ((searchRegexWarn h.reSearch [timePattern] webpage
    "upload time").1).bind h.unifiedTimestamp = none
  rw [hw]
  rfl

/-- Witness for C8 at concrete inputs (the concrete host's upload-time
search indeed misses). -/
theorem claim_C8_no_time_witness :
    ∃ e, realExtract hostA "1074402" "PAGE" viSingle =
        Except.ok (FinalResult.single e, ["unable to extract upload time"])
      ∧ e.timestamp = none :=
  claim_C8_no_time hostA "1074402" "PAGE" viSingle durl1 "12345" "TITLE" fmts1
    (by rfl) rfl (by rfl) (by rfl) (by rfl)

/-! ### Claim C9 -/

/-- Counterexample to claim C9: a concrete extraction whose single durl
record lacks the `size` key aborts with a `KeyError` from the unguarded
`durl['size']` subscript instead of succeeding with an unset filesize. -/
theorem claim_C9_counterexample :
    realExtract hostA "1" "PAGE" viNoSize =
      Except.error (ExtractError.keyError "size") := by rfl

/-- Claim C9 as amended: when the `size` key is present with a `null`
value the record still resolves and the primary format's filesize is
simply unset; but when the `size` KEY is absent the unguarded
`durl['size']` subscript aborts the extraction of that record. -/
theorem claim_C9_amended (d : DurlRecord) :
    (d.size = some JVal.null →
      rawFormats d =
        Except.ok
          ({ url := d.url, filesize := none, preference := none } ::
            d.backup_url.map (fun b =>
              { url := b, filesize := none,
                preference :=
                  some (if strContains b "hd.mp4" then -2 else -3) })))
    ∧ (d.size = none →
        formatsOf d = Except.error (ExtractError.keyError "size")) := by
  constructor
  · intro hs
    simp [rawFormats, hs, int_or_none]
  · intro hs
    simp [formatsOf, rawFormats, hs]

/-- Witness for the amended C9: a record with `size = null` resolves
with unset filesize; a record with no `size` key aborts. -/
theorem claim_C9_amended_witness :
    rawFormats durl2 =
      Except.ok
        ({ url := durl2.url, filesize := none, preference := none } ::
          durl2.backup_url.map (fun b =>
            { url := b, filesize := none,
              preference := some (if strContains b "hd.mp4" then -2 else -3) }))
    ∧ formatsOf durlNoSize = Except.error (ExtractError.keyError "size") :=
  ⟨(claim_C9_amended durl2).1 rfl, (claim_C9_amended durlNoSize).2 rfl⟩

/-! ### Claim C10 -/

/-- Claim C10: there is a page input where a player-parameters pattern
matches but the matched fragment carries no `cid` key; extraction then
fails via the unguarded dictionary lookup (`KeyError`), not via the
structured "not found" error. -/
theorem claim_C10_unguarded_cid :
    hostNoCid.reSearch playerPatternA "PAGE" = some "foo=1"
    ∧ realExtract hostNoCid "1" "PAGE" viSingle =
        Except.error (ExtractError.keyError "cid")
    ∧ ExtractError.keyError "cid" ≠
        ExtractError.regexNotFound "player parameters" :=
  ⟨by rfl, by rfl, by decide⟩

end Bili

